import Mathlib

/-!
Verification development for the rs_ngmo2 instrument driver
(JxR-TestMeasure/Rhode_Schwartz_ngmo2, file rs_ngmo2.py).

Shallow embedding: Python's dynamically typed values are modelled by the
inductive type PyVal (floats as exact rationals), the synchronous VISA bus
by a device model that maps the history of bus operations and a query
string to a response string, and each relevant Python function by a Lean
function over these types.  Fallible Python code (int()/float() parsing,
calling a non-callable) is modelled with Option, where none stands for an
uncaught Python exception.
-/

set_option maxRecDepth 4000

/-- A Python dict from string keys to string values, as used for the
per-component parameter caches (Channel.values, Log.values, ...).
Modelled as an association list; dictSet mirrors in-place assignment
d[k] = v (replace the existing binding or append a new one). -/
abbrev Dict : Type := List (String × String)

def dictSet : Dict → String → String → Dict
  | [], k, v => [(k, v)]
  | (k', v') :: rest, k, v =>
      if k' = k then (k, v) :: rest else (k', v') :: dictSet rest k v

/-- Python d[k] as a read; none models a KeyError. -/
def dictGet (d : Dict) (k : String) : Option String :=
  List.lookup k d

/-- Python substring containment x in y for character lists. -/
def pyInChars (x : List Char) : List Char → Bool
  | [] => x.isEmpty
  | c :: cs => List.isPrefixOf x (c :: cs) || pyInChars x cs

/-- Python substring containment x in y for strings (the semantics of
the source's find_element lambda when its second argument is a str). -/
def pyInStr (x y : String) : Bool :=
  pyInChars x.toList y.toList

/-- Lower-casing a string, character by character (ASCII suffices for
every string this code handles); a kernel-reducible stand-in for
Python str.lower(). -/
def pyLower (s : String) : String :=
  String.mk (s.toList.map Char.toLower)

/-- Upper-casing a string, character by character: Python str.upper(). -/
def pyUpper (s : String) : String :=
  String.mk (s.toList.map Char.toUpper)

/-- Split a character list on a separator, Python str.split(sep)
semantics: adjacent separators and ends yield empty pieces and the empty
input yields one empty piece. -/
def splitChar (sep : Char) : List Char → List (List Char)
  | [] => [[]]
  | c :: rest =>
      let r := splitChar sep rest
      if c = sep then [] :: r
      else
        match r with
        | h :: t => (c :: h) :: t
        | [] => [[c]]

/-- Value of a list of decimal digit characters; none if empty or a
non-digit appears. -/
def digitsToNat (cs : List Char) : Option Nat :=
  if cs.isEmpty then none
  else cs.foldl
    (fun acc c => acc.bind fun a =>
      if c.isDigit then some (a * 10 + (c.toNat - 48)) else none)
    (some 0)

/-- Python int(s): parse an optionally signed decimal integer.
none models the ValueError exception int() raises on other inputs. -/
def pyInt (s : String) : Option Int :=
  match s.toList with
  | '-' :: rest => (digitsToNat rest).map (fun n => -(n : Int))
  | cs => (digitsToNat cs).map (fun n => (n : Int))

/-- Negation, sum, product and quotient of rationals, spelled with
mkRat over the numerator and denominator projections.  The ring
operations of the Rat type are marked irreducible in the ambient
library, which would block evaluation inside the kernel; these
equivalent forms evaluate, which keeps every definition here decidable
on concrete inputs. -/
def ratNeg (a : ℚ) : ℚ := mkRat (-a.num) a.den

def ratAdd (a b : ℚ) : ℚ :=
  mkRat (a.num * (b.den : Int) + b.num * (a.den : Int)) (a.den * b.den)

def ratSub (a b : ℚ) : ℚ := ratAdd a (ratNeg b)

def ratMul (a b : ℚ) : ℚ := mkRat (a.num * b.num) (a.den * b.den)

def ratDiv (a b : ℚ) : ℚ :=
  if 0 ≤ b.num then mkRat (a.num * (b.den : Int)) (a.den * b.num.toNat)
  else mkRat (-(a.num * (b.den : Int))) (a.den * (-b.num).toNat)

/-- Python float() on a list of characters spelling a plain decimal
literal: digits with an optional fractional part, read as the exact
rational (integer-and-fraction digits over the matching power of 10). -/
def pyFloatChars (cs : List Char) : Option ℚ :=
  match splitChar '.' cs with
  | [a] => (digitsToNat a).map (fun n => mkRat (n : Int) 1)
  | [a, b] =>
      match digitsToNat a, digitsToNat b with
      | some ip, some fp =>
          some (mkRat ((ip : Int) * 10 ^ b.length + (fp : Int)) (10 ^ b.length))
      | _, _ => none
  | _ => none

/-- An optional leading minus sign in front of a plain decimal literal. -/
def pyFloatSigned (cs : List Char) : Option ℚ :=
  match cs with
  | '-' :: rest => (pyFloatChars rest).map ratNeg
  | _ => pyFloatChars cs

/-- Python float(s) on plain decimal literals such as "0.01", "-3", "1.0":
an optional minus sign, digits, and an optional fractional part.  The
float is modelled as an exact rational.  Other accepted Python spellings
(exponents, leading dot, inf) are not exercised by this code base and
are mapped to none, like the ValueError float() raises on garbage. -/
def pyFloat (s : String) : Option ℚ :=
  pyFloatSigned s.toList

/-- Floor of a rational, computed with integer floor division on the
projections. -/
def ratFloor (q : ℚ) : Int :=
  Int.fdiv q.num (q.den : Int)

def ratCeil (q : ℚ) : Int :=
  -ratFloor (ratNeg q)

/-- Round to the nearest integer, ties to even: the rounding rule of
Python round().  The fractional part r = x - floor x is compared with
1/2 by cross-multiplying with the (positive) denominator:
2 r den = 2 num - 2 floor den versus den. -/
def roundHalfEven (x : ℚ) : Int :=
  let f := ratFloor x
  let twoR := 2 * x.num - 2 * f * (x.den : Int)
  if twoR < (x.den : Int) then f
  else if (x.den : Int) < twoR then f + 1
  else if f % 2 = 0 then f else f + 1

/-- Python round(x, n) for n decimal digits, on the exact-rational model
of floats: round half-to-even at the n-th decimal, i.e.
roundHalfEven (x 10^n) / 10^n. -/
def pyRound (x : ℚ) (n : Nat) : ℚ :=
  mkRat (roundHalfEven (mkRat (x.num * 10 ^ n) x.den)) (10 ^ n)

/-- Decimal digits of the fraction rem/den (with rem < den), with fuel. -/
def fracDigitsNat : Nat → Nat → Nat → List Char
  | _, _, 0 => []
  | rem, den, n + 1 =>
      if rem = 0 then []
      else
        let r10 := rem * 10
        Char.ofNat (48 + r10 / den) :: fracDigitsNat (r10 % den) den n

/-- Python str()/repr() of a float whose exact value is a short decimal
fraction (every float literal in the source is one): sign, integer part,
a dot, and the fractional digits, with a trailing 0 when the fractional
part is empty (str(15.0) = "15.0"). -/
def decimalRepr (q : ℚ) : String :=
  let sign := if q.num < 0 then "-" else ""
  let anum := q.num.natAbs
  let ip := anum / q.den
  let ds := fracDigitsNat (anum % q.den) q.den 25
  sign ++ toString ip ++ "." ++ (if ds.isEmpty then "0" else String.mk ds)

/-- A Python numeric literal as written in the source: an int literal or
a float literal.  Keeps the distinction because str() renders them
differently ("5" vs "5.0"). -/
inductive NumLit
  | i (n : Int)
  | f (q : ℚ)
deriving DecidableEq

def NumLit.val : NumLit → ℚ
  | .i n => mkRat n 1
  | .f q => q

def NumLit.render : NumLit → String
  | .i n => toString n
  | .f q => decimalRepr q

/-- Python str() of a tuple of two numeric literals, e.g. "(0.0, 15.0)". -/
def numPairStr (p : NumLit × NumLit) : String :=
  "(" ++ p.1.render ++ ", " ++ p.2.render ++ ")"

/-- Python str() of a pair of ints, e.g. "(0, 128)". -/
def intPairStr (p : Int × Int) : String :=
  "(" ++ toString p.1 ++ ", " ++ toString p.2 ++ ")"

/-- Python str() of a tuple of two or more strings,
e.g. "('min', 'max', 'def', 'default')".  Every alias tuple in the
source has at least two entries, so the one-element trailing-comma
form never arises. -/
def joinWith (sep : String) : List String → String
  | [] => ""
  | [x] => x
  | x :: y :: xs => x ++ sep ++ joinWith sep (y :: xs)

def strTupleStr (xs : List String) : String :=
  "(" ++ joinWith ", " (xs.map fun s => "'" ++ s ++ "'") ++ ")"

/-- A dynamically typed Python value as passed to the validators and to
read_write.  other carries the rendering of type(value) for any type
outside int/float/str; Python bools are ints and are not distinguished. -/
inductive PyVal
  | int (n : Int)
  | float (q : ℚ)
  | str (s : String)
  | other (ty : String)
deriving DecidableEq

/-- Python str(value).  No modelled call path applies str() to a value
of the other kind, but the function must be total. -/
def PyVal.toPyStr : PyVal → String
  | .int n => toString n
  | .float q => decimalRepr q
  | .str s => s
  | .other _ => "<object>"

/-- The rendering of type(value), as interpolated into TypeError
messages. -/
def PyVal.typeName : PyVal → String
  | .int _ => "<class 'int'>"
  | .float _ => "<class 'float'>"
  | .str _ => "<class 'str'>"
  | .other ty => ty

/-- Result of a validator: the canonical wire token, or a ValueError or
TypeError instance returned (not raised) as an ordinary value, carrying
its message string. -/
inductive VResult
  | ok (token : String)
  | valueErr (msg : String)
  | typeErr (msg : String)
deriving DecidableEq

/-- The validation set of Validate.float_rng_and_str_tuples: a numeric
range tuple (kept as literals so its str() form is exact) and an alias
tuple. -/
structure NumStrSet where
  rng : NumLit × NumLit
  aliases : List String
deriving DecidableEq

def NumStrSet.lo (s : NumStrSet) : ℚ := s.rng.1.val
def NumStrSet.hi (s : NumStrSet) : ℚ := s.rng.2.val

/-- Message of the ValueError built on the numeric branch of
float_rng_and_str_tuples. -/
def frsRangeErrMsg (s : NumStrSet) : String :=
  "ValueError!" ++ "\n" ++ "Not in range:(float, int) " ++ numPairStr s.rng
    ++ "\n" ++ "or in set:(str) " ++ strTupleStr s.aliases

/-- Message of the ValueError built on the string branch of
float_rng_and_str_tuples. -/
def frsSetErrMsg (s : NumStrSet) : String :=
  "ValueError!" ++ "\n" ++ "Not in set:(str) " ++ strTupleStr s.aliases
    ++ "\n" ++ "or in range:(float, int) " ++ numPairStr s.rng

/-- Message of the TypeError built by float_rng_and_str_tuples. -/
def frsTypeErrMsg (tyName : String) : String :=
  "TypeError!" ++ "\n" ++ "Received type: " ++ tyName ++ "\n"
    ++ "Valid types: <class 'int'>, <class 'float'>, <class 'str'>"

/-- Numeric branch of Validate.float_rng_and_str_tuples: round the value
to round_to decimals, accept iff it lies in the closed range, and
return str(value) (tok, the original rendering) as the token. -/
def frsNumCase (s : NumStrSet) (x : ℚ) (tok : String) (round_to : Nat) : VResult :=
  let val := pyRound x round_to
  if s.lo ≤ val ∧ val ≤ s.hi then .ok tok
  else .valueErr (frsRangeErrMsg s)

/-- Validate.float_rng_and_str_tuples (rs_ngmo2.py lines 800-827).
Note the string branch: the source tests
value.lower() in str(validation_set[1]).lower(), i.e. substring
containment in the str() rendering of the alias tuple, not membership
of the tuple. -/
def float_rng_and_str_tuples (s : NumStrSet) (value : PyVal) (round_to : Nat) : VResult :=
  match value with
  | .float q => frsNumCase s q (decimalRepr q) round_to
  | .int n => frsNumCase s (mkRat n 1) (toString n) round_to
  | .str v =>
      let val := pyLower v
      if pyInStr val (pyLower (strTupleStr s.aliases)) then .ok (pyUpper val)
      else .valueErr (frsSetErrMsg s)
  | .other ty => .typeErr (frsTypeErrMsg ty)

/-- Message of the ValueError built by Validate.str_tuple. -/
def stValueErrMsg (aliases : List String) : String :=
  "ValueError!" ++ "\n" ++ "Not in set:(str) " ++ strTupleStr aliases

/-- Message of the TypeError built by Validate.str_tuple. -/
def stTypeErrMsg (tyName : String) : String :=
  "TypeError!" ++ "\n" ++ "Received type: " ++ tyName ++ "\n"
    ++ "Valid types: <class 'str'>"

/-- Validate.str_tuple (rs_ngmo2.py lines 916-930).  Same substring
test against str(validation_set).lower() as float_rng_and_str_tuples. -/
def str_tuple (aliases : List String) (value : PyVal) : VResult :=
  match value with
  | .str v =>
      let val := pyLower v
      if pyInStr val (pyLower (strTupleStr aliases)) then .ok (pyUpper val)
      else .valueErr (stValueErrMsg aliases)
  | v => .typeErr (stTypeErrMsg v.typeName)

/-- Message of the ValueError built by Validate.int_rng_tuple. -/
def irtValueErrMsg (rng : Int × Int) : String :=
  "ValueError!" ++ "\n" ++ "Not in range:(int) " ++ intPairStr rng

/-- Message of the TypeError built by Validate.int_rng_tuple. -/
def irtTypeErrMsg (tyName : String) : String :=
  "TypeError!" ++ "\n" ++ "Received type: " ++ tyName ++ "\n"
    ++ "Valid types: <class 'int'>"

/-- Validate.int_rng_tuple (rs_ngmo2.py lines 932-946).  The range test
is x in range(lo, hi + 1), i.e. lo ≤ x ≤ hi. -/
def int_rng_tuple (rng : Int × Int) (value : PyVal) : VResult :=
  match value with
  | .int n =>
      if rng.1 ≤ n ∧ n ≤ rng.2 then .ok (toString n)
      else .valueErr (irtValueErrMsg rng)
  | v => .typeErr (irtTypeErrMsg v.typeName)

/-- voltage_values of ValidateChannel.voltage (line 958):
range (0.0, 15.0) with aliases ('min', 'max', 'def', 'default'). -/
def voltage_values : NumStrSet :=
  { rng := (NumLit.f 0, NumLit.f 15), aliases := ["min", "max", "def", "default"] }

/-- ValidateChannel.voltage (rs_ngmo2.py lines 957-959). -/
def ValidateChannel.voltage (value : PyVal) : VResult :=
  float_rng_and_str_tuples voltage_values value 3

/-- register_values of ValidateRegister.register_8 (line 1069): (0, 128). -/
def register_8_values : Int × Int := (0, 128)

/-- ValidateRegister.register_8 (rs_ngmo2.py lines 1068-1070), the
validator Common.ese and Common.sre pass to read_write. -/
def ValidateRegister.register_8 (value : PyVal) : VResult :=
  int_rng_tuple register_8_values value

def register_16_values : Int × Int := (0, 65535)

/-- ValidateRegister.register_16 (rs_ngmo2.py lines 1072-1074), used by
Status.meas_enable_reg and the other 16-bit enable registers. -/
def ValidateRegister.register_16 (value : PyVal) : VResult :=
  int_rng_tuple register_16_values value

/-- sample_channel_values of ValidateLog.sample_channel (line 1048). -/
def sample_channel_values : List String :=
  ["current", "curr", "dvm", "min", "max", "def", "default"]

/-- ValidateLog.sample_channel (rs_ngmo2.py lines 1047-1051). -/
def ValidateLog.sample_channel (value : PyVal) : VResult :=
  str_tuple sample_channel_values value

/-- One operation on the VISA bus: a write of a command string, a query
(combined write and read) of a command string, or the blocking
wait_for_srq call with its timeout in milliseconds. -/
inductive BusOp
  | write (cmd : String)
  | query (cmd : String)
  | srqWait (timeoutMs : Nat)
deriving DecidableEq

/-- A mock device behind the bus: given the history of operations issued
so far and a query command, it yields the response string.  A trace is
the list of operations issued so far; a query's response is computed
from the history before that query is appended. -/
def DeviceModel : Type := List BusOp → String → String

/-- A Python callable-or-not argument slot.  Command.read_write's
validator parameter is dynamically typed: Common.opc passes its
reg_value (a plain value) into it. -/
inductive PyObj
  | callable (f : PyVal → VResult)
  | val (v : PyVal)

/-- Calling the object: none models the TypeError exception Python
raises when the object is not callable. -/
def callPy : PyObj → PyVal → Option VResult
  | .callable f, v => some (f v)
  | .val _, _ => none

/-- Validate.error_text(warning_type, error_type) for the one key the
code uses ('WARNING'): wrap str(error) in the yellow ANSI escape and the
reset escape. -/
def error_text (msg : String) : String :=
  "\x1b[93m" ++ msg ++ "\x1b[0m"

/-- Result of one Command.read_write call: the full bus trace after the
call, the Python return value (none models returning None), the cache
dict as left by the call (mirroring the argument when untouched), and
the diagnostic printed on a validation failure, if any. -/
structure RWOut where
  trace : List BusOp
  ret : Option String
  dict : Option Dict
  diag : Option String
deriving DecidableEq

/-- The send-then-resynchronize block duplicated in both the
validator-accepted branch and the no-validator branch of read_write:
append a space and str(value) to the write token, send it, and if a
cache dict was supplied, re-issue the query and store its response
under value_key. -/
def rwSend (dev : DeviceModel) (hist : List BusOp) (q w : String) (v : PyVal)
    (value_dict : Option Dict) (value_key : String) : RWOut :=
  let wfull := w ++ " " ++ v.toPyStr
  let h1 := hist ++ [BusOp.write wfull]
  match value_dict with
  | some d =>
      { trace := h1 ++ [BusOp.query q], ret := none,
        dict := some (dictSet d value_key (dev h1 q)), diag := none }
  | none => { trace := h1, ret := none, dict := none, diag := none }

/-- Command.read_write (rs_ngmo2.py lines 1170-1192).  value = none is
Python value=None (the pure-read path); a validation failure prints the
wrapped error and implicitly returns None having touched nothing; the
overall none result models an uncaught exception (validator argument not
callable).  The value_key parameter defaults to None in Python and is
only read when a dict is supplied; callers without a dict are modelled
with the empty string. -/
def read_write (dev : DeviceModel) (hist : List BusOp) (q w : String)
    (validator : Option PyObj) (value : Option PyVal)
    (value_dict : Option Dict) (value_key : String) : Option RWOut :=
  match value with
  | none =>
      some { trace := hist ++ [BusOp.query q], ret := some (dev hist q),
             dict := value_dict, diag := none }
  | some v =>
    match validator with
    | some ob =>
      match callPy ob v with
      | none => none
      | some (VResult.valueErr m) =>
          some { trace := hist, ret := none, dict := value_dict,
                 diag := some (error_text m) }
      | some (VResult.typeErr m) =>
          some { trace := hist, ret := none, dict := value_dict,
                 diag := some (error_text m) }
      | some (VResult.ok _) => some (rwSend dev hist q w v value_dict value_key)
    | none => some (rwSend dev hist q w v value_dict value_key)

/-- Common.opc (rs_ngmo2.py lines 87-91).  The source calls
read_write(query, write, reg_value) positionally, so reg_value lands in
the validator parameter and the value parameter keeps its None
default. -/
def Common.opc (dev : DeviceModel) (hist : List BusOp) (reg_value : Option PyVal) :
    Option RWOut :=
  read_write dev hist "*OPC?" "*OPC" (reg_value.map PyObj.val) none none ""

/-- Python bitwise AND of an int with a nonnegative mask, two's
complement on the negative side. -/
def pyAnd (x : Int) (m : Nat) : Nat :=
  match x with
  | .ofNat n => n &&& m
  | .negSucc n => m - (m &&& n)

/-- np.array(data.split(';'), dtype='f') on the exact-rational model:
split on the delimiter and convert each piece; none models the
conversion error numpy raises on a malformed piece. -/
def parseSeries (s : String) : Option (List ℚ) :=
  (splitChar ';' s.toList).mapM pyFloatSigned

/-- np.arange(start, stop, step) for a positive step, on the
exact-rational model: ceil((stop - start) / step) evenly spaced points
from start.  A nonpositive step (never produced by the modelled code
paths) yields the empty array. -/
def arange (start stop step : ℚ) : List ℚ :=
  if 0 < step then
    let n := Int.toNat (ratCeil (ratDiv (ratSub stop start) step))
    (List.range n).map (fun i => ratAdd start (ratMul (mkRat i 1) step))
  else []

/-- The Log.log_data sample buffer: a current or voltage series and the
synthesized time axis, each absent until assigned. -/
structure LogData where
  current : Option (List ℚ) := none
  voltage : Option (List ℚ) := none
  seconds : Option (List ℚ) := none
deriving DecidableEq

def LogData.empty : LogData := {}

/-- The state of a Log object: its channel letter, its values cache and
its sample buffer. -/
structure LogState where
  channel : String
  values : Dict
  log_data : LogData
deriving DecidableEq

/-- Log.sample_channel (rs_ngmo2.py lines 323-328).  Note the cache key
it passes to read_write: 'sample_source', not 'sample_channel'. -/
def Log.sample_channel (dev : DeviceModel) (st : LogState) (hist : List BusOp)
    (set_sample_channel : Option PyVal) : Option (RWOut × LogState) :=
  (read_write dev hist
      (":SENS:" ++ st.channel ++ ":PULS:MEAS:CHAN?")
      (":SENS:" ++ st.channel ++ ":PULS:MEAS:CHAN")
      (some (PyObj.callable ValidateLog.sample_channel))
      set_sample_channel (some st.values) "sample_source").map
    (fun out => (out, { st with values := out.dict.getD st.values }))

/-- The channel-dependent constants picked at the top of
Log.start_sample: the enable-register value to program, the
reading_avail, trigger_timeout and meas_overflow bit masks, and the arm
token. -/
def chanConsts (c : String) : Int × Nat × Nat × Nat × String :=
  if c = "A" then (56, 32, 16, 8, "*AARM") else (448, 256, 128, 64, "*BARM")

/-- The bus operations issued by start_sample before it reads the
Measurement Enable register: the error-queue clear write and the
stale-clearing (discarded) Measurement Event register query. -/
def ssPrefixTrace (hist : List BusOp) : List BusOp :=
  hist ++ [BusOp.write ":SYST:CLE", BusOp.query ":STAT:MEAS:EVEN?"]

/-- The response the device gives to start_sample's initial Measurement
Enable register query, whose int() parse is saved for restoration. -/
def ssEnabResp (dev : DeviceModel) (hist : List BusOp) : String :=
  dev (ssPrefixTrace hist) ":STAT:MEAS:ENAB?"

/-- The outcome classification of Log.start_sample (lines 386-402) after
the Measurement Event register has been read and parsed.  The
reading-available branch fetches and parses the array, stores it under
'current' when the cached values['sample_channel'] entry is a
current-type token and under 'voltage' otherwise, and synthesizes the
time axis from the cached sample_interval and sample_length.  The
trigger-timeout and unknown branches, and the overflow check, only
print, so they are state-identical here. -/
def ssBranch (dev : DeviceModel) (st : LogState) (h : List BusOp)
    (event_reg : Int) (reading_avail : Nat) : Option (LogData × List BusOp) :=
  if pyAnd event_reg reading_avail ≠ 0 then
    let fetchCmd := ":FETC:" ++ st.channel ++ ":ARR?"
    let data := dev h fetchCmd
    let h' := h ++ [BusOp.query fetchCmd]
    (parseSeries data).bind fun series =>
    (dictGet st.values "sample_channel").bind fun sc =>
    let ld1 : LogData :=
      if sc = "CURR" ∨ sc = "CURRENT"
      then { LogData.empty with current := some series }
      else { LogData.empty with voltage := some series }
    (dictGet st.values "sample_interval").bind fun siStr =>
    (pyFloat siStr).bind fun si =>
    (dictGet st.values "sample_length").bind fun slStr =>
    (pyInt slStr).bind fun sl =>
    some ({ ld1 with seconds := some (arange 0 (ratMul si (mkRat sl 1)) si) }, h')
  else
    some (LogData.empty, h)

/-- Log.start_sample (rs_ngmo2.py lines 348-404).  The overall none
models an uncaught Python exception (an int()/float()/array parse
failure or a missing cache key); on none the partial bus trace is not
observed.  All nested calls (Status.clear_error_queue,
Status.get_meas_event_reg, Status.meas_enable_reg, Common.sre,
Common.wait, Command.write, the direct bus query and wait_for_srq) are
inlined through the same read_write model the source routes them
through. -/
def start_sample (dev : DeviceModel) (st : LogState) (hist : List BusOp) :
    Option (LogState × List BusOp) :=
  let h3 := ssPrefixTrace hist ++ [BusOp.query ":STAT:MEAS:ENAB?"]
  match pyInt (ssEnabResp dev hist) with
  | none => none
  | some enable_reg =>
    match chanConsts st.channel with
    | (enabVal, reading_avail, _trigger_timeout, _meas_overflow, pulse_start) =>
      (read_write dev h3 ":STAT:MEAS:ENAB?" ":STAT:MEAS:ENAB"
          (some (PyObj.callable ValidateRegister.register_16))
          (some (PyVal.int enabVal)) none "").bind fun r1 =>
      (read_write dev r1.trace "*SRE?" "*SRE"
          (some (PyObj.callable ValidateRegister.register_8))
          (some (PyVal.int 1)) none "").bind fun r2 =>
      let h4 := r2.trace ++
        [BusOp.write "*WAI", BusOp.write pulse_start, BusOp.srqWait 10000]
      (read_write dev h4 "*SRE?" "*SRE"
          (some (PyObj.callable ValidateRegister.register_8))
          (some (PyVal.int 0)) none "").bind fun r3 =>
      let evResp := dev r3.trace ":STAT:MEAS:EVEN?"
      let h5 := r3.trace ++ [BusOp.query ":STAT:MEAS:EVEN?"]
      (pyInt evResp).bind fun event_reg =>
      (ssBranch dev st h5 event_reg reading_avail).bind fun ldh =>
      (read_write dev ldh.2 ":STAT:MEAS:ENAB?" ":STAT:MEAS:ENAB"
          (some (PyObj.callable ValidateRegister.register_16))
          (some (PyVal.int enable_reg)) none "").bind fun r4 =>
      some ({ st with log_data := ldh.1 }, r4.trace)

/-- A mock device that always answers 14.999, standing for a device that
clamps a requested setting: used to observe that the cache is filled
from the device's own response. -/
def clampDev : DeviceModel := fun _ _ => "14.999"

/-- Constructor-time Log.values cache for the sample-source scenarios:
the device reported CURR for the sample channel, 0.01 s interval and a
length of 3. -/
def scValues0 : Dict :=
  [("sampling_on", "OFF"), ("sample_channel", "CURR"), ("sample_type", "AVER"),
   ("sample_interval", "0.01"), ("sample_length", "3")]

/-- The same cache after a confirmed sample_channel('dvm') write: the
device's echo DVM was stored under the key 'sample_source'. -/
def scValues1 : Dict :=
  [("sampling_on", "OFF"), ("sample_channel", "CURR"), ("sample_type", "AVER"),
   ("sample_interval", "0.01"), ("sample_length", "3"), ("sample_source", "DVM")]

/-- Mock device for the sample-source scenario: confirms DVM as the
sample channel, reports 56 in the Measurement Enable register, raises
the reading-available bit (32) in the Measurement Event register and
returns two samples from the array fetch. -/
def scDev : DeviceModel := fun _ cmd =>
  if cmd = ":SENS:A:PULS:MEAS:CHAN?" then "DVM"
  else if cmd = ":STAT:MEAS:ENAB?" then "56"
  else if cmd = ":STAT:MEAS:EVEN?" then "32"
  else if cmd = ":FETC:A:ARR?" then "1.5;2.5"
  else "0"

def scSt0 : LogState := { channel := "A", values := scValues0, log_data := LogData.empty }

def scSt1 : LogState := { channel := "A", values := scValues1, log_data := LogData.empty }

/-- Mock device for a trigger-timeout acquisition run on channel A: the
Measurement Enable register reads 56 and the Measurement Event register
reports only the trigger-timeout bit (16). -/
def toDev : DeviceModel := fun _ cmd =>
  if cmd = ":STAT:MEAS:ENAB?" then "56" else "16"

def toSt : LogState := { channel := "A", values := [], log_data := LogData.empty }

/-- The full bus trace of a trigger-timeout run of start_sample against
toDev from an empty history. -/
def toTrace : List BusOp :=
  [BusOp.write ":SYST:CLE", BusOp.query ":STAT:MEAS:EVEN?",
   BusOp.query ":STAT:MEAS:ENAB?", BusOp.write ":STAT:MEAS:ENAB 56",
   BusOp.write "*SRE 1", BusOp.write "*WAI", BusOp.write "*AARM",
   BusOp.srqWait 10000, BusOp.write "*SRE 0", BusOp.query ":STAT:MEAS:EVEN?",
   BusOp.write ":STAT:MEAS:ENAB 56"]

/-- Mock device for the reference data-ready scenario of the spec: the
Enable register reads 0, the Event register raises reading_avail (32)
and the fetch returns "1.0;2.0;3.0". -/
def drDev : DeviceModel := fun _ cmd =>
  if cmd = ":STAT:MEAS:ENAB?" then "0"
  else if cmd = ":STAT:MEAS:EVEN?" then "32"
  else if cmd = ":FETC:A:ARR?" then "1.0;2.0;3.0"
  else "0"

/-- Cached logging parameters for the data-ready scenario:
sample_length 100, sample_interval 0.01, a current-type sample source. -/
def drSt : LogState :=
  { channel := "A",
    values := [("sample_channel", "CURR"), ("sample_interval", "0.01"),
               ("sample_length", "100")],
    log_data := LogData.empty }

theorem dictGet_dictSet (d : Dict) (k v : String) :
    dictGet (dictSet d k v) k = some v := by
  induction d with
  | nil => simp [dictSet, dictGet, List.lookup]
  | cons p rest ih =>
      rcases p with ⟨a, b⟩
      by_cases h : a = k
      · subst h
        simp [dictSet, dictGet, List.lookup]
      · have hba : (k == a) = false :=
          beq_eq_false_iff_ne.mpr (fun hh => h hh.symm)
        simpa [dictSet, h, dictGet, List.lookup, hba] using ih

theorem read_write_set_ok (dev : DeviceModel) (hist : List BusOp) (q w : String)
    (f : PyVal → VResult) (v : PyVal) (tok : String) (h : f v = VResult.ok tok) :
    read_write dev hist q w (some (PyObj.callable f)) (some v) none "" =
      some { trace := hist ++ [BusOp.write (w ++ " " ++ v.toPyStr)],
             ret := none, dict := none, diag := none } := by
  simp [read_write, callPy, h, rwSend]

theorem getLast?_append_single {α : Type} (l : List α) (a : α) :
    (l ++ [a]).getLast? = some a := by
  simp [List.getLast?_concat]

/-- C10: Common.opc(r) binds its argument to read_write's validator
parameter while the value parameter stays None, so for every argument r
the call takes the pure-read path: the trace gains exactly the *OPC?
query, its response is returned, and no *OPC write is ever sent. -/
theorem opc_always_pure_read (dev : DeviceModel) (hist : List BusOp)
    (r : Option PyVal) :
    Common.opc dev hist r =
      some { trace := hist ++ [BusOp.query "*OPC?"],
             ret := some (dev hist "*OPC?"), dict := none, diag := none } := by
  rfl

/-- C2: when the supplied validator accepts the value and a cache dict
and key are supplied, read_write issues exactly one bus write followed
by exactly one bus query, and afterwards the cache at that key holds the
query's response string (the device's own echo, not the input value). -/
theorem read_write_valid_value_device_truth (dev : DeviceModel)
    (hist : List BusOp) (q w : String) (f : PyVal → VResult) (v : PyVal)
    (d : Dict) (key tok : String) (hacc : f v = VResult.ok tok) :
    read_write dev hist q w (some (PyObj.callable f)) (some v) (some d) key =
      some { trace := hist ++ [BusOp.write (w ++ " " ++ v.toPyStr), BusOp.query q],
             ret := none,
             dict := some (dictSet d key
               (dev (hist ++ [BusOp.write (w ++ " " ++ v.toPyStr)]) q)),
             diag := none } ∧
    dictGet (dictSet d key (dev (hist ++ [BusOp.write (w ++ " " ++ v.toPyStr)]) q))
        key =
      some (dev (hist ++ [BusOp.write (w ++ " " ++ v.toPyStr)]) q) := by
  constructor
  · simp [read_write, callPy, hacc, rwSend]
  · exact dictGet_dictSet ..

/-- Witness for C2 at a concrete input: the voltage alias "max" is
accepted and, against a mock device that clamps and answers 14.999, the
cache ends up holding 14.999 - the device's echo, not the input. -/
theorem read_write_valid_value_device_truth_witness :
    ValidateChannel.voltage (PyVal.str "max") = VResult.ok "MAX" ∧
    (read_write clampDev [] ":SOUR:A:VOLT?" ":SOUR:A:VOLT"
        (some (PyObj.callable ValidateChannel.voltage))
        (some (PyVal.str "max")) (some [("voltage", "15.0")]) "voltage" =
      some { trace := [BusOp.write ":SOUR:A:VOLT max", BusOp.query ":SOUR:A:VOLT?"],
             ret := none, dict := some [("voltage", "14.999")], diag := none } ∧
     dictGet [("voltage", "14.999")] "voltage" = some "14.999") :=
  ⟨by decide,
   read_write_valid_value_device_truth clampDev [] ":SOUR:A:VOLT?" ":SOUR:A:VOLT"
     ValidateChannel.voltage (PyVal.str "max") [("voltage", "15.0")] "voltage"
     "MAX" (by decide)⟩

/-- C6: when the supplied validator rejects the value (ValueError or
TypeError), read_write prints a diagnostic (the ANSI-wrapped error),
issues no bus write and no bus query, leaves the cache dict unchanged
and returns None. -/
theorem read_write_invalid_no_bus_no_cache (dev : DeviceModel)
    (hist : List BusOp) (q w : String) (f : PyVal → VResult) (v : PyVal)
    (d : Dict) (key m : String)
    (hrej : f v = VResult.valueErr m ∨ f v = VResult.typeErr m) :
    read_write dev hist q w (some (PyObj.callable f)) (some v) (some d) key =
      some { trace := hist, ret := none, dict := some d,
             diag := some (error_text m) } := by
  rcases hrej with h | h <;> simp [read_write, callPy, h]

/-- Witness for C6 at a concrete input: 17.0 is outside the voltage
range, the call performs no bus operation, the cache keeps its old
binding and the range-and-alias diagnostic is emitted. -/
theorem read_write_invalid_no_bus_no_cache_witness :
    (ValidateChannel.voltage (PyVal.float 17) =
        VResult.valueErr (frsRangeErrMsg voltage_values) ∨
      ValidateChannel.voltage (PyVal.float 17) =
        VResult.typeErr (frsRangeErrMsg voltage_values)) ∧
    read_write clampDev [] ":SOUR:A:VOLT?" ":SOUR:A:VOLT"
        (some (PyObj.callable ValidateChannel.voltage))
        (some (PyVal.float 17)) (some [("voltage", "15.0")]) "voltage" =
      some { trace := [], ret := none, dict := some [("voltage", "15.0")],
             diag := some (error_text (frsRangeErrMsg voltage_values)) } :=
  ⟨Or.inl (by decide),
   read_write_invalid_no_bus_no_cache clampDev [] ":SOUR:A:VOLT?" ":SOUR:A:VOLT"
     ValidateChannel.voltage (PyVal.float 17) [("voltage", "15.0")] "voltage"
     (frsRangeErrMsg voltage_values) (Or.inl (by decide))⟩

/-- C1: evaluation at the failing input.  The voltage validator's string
branch tests substring containment in str(alias_tuple).lower(), so the
non-alias strings "m" and ", " are accepted (and canonicalised by
upper-casing) although neither matches an entry of the alias set; a
genuine alias like "max" is also accepted. -/
theorem voltage_accepts_non_alias_substring :
    ValidateChannel.voltage (PyVal.str "m") = VResult.ok "M" ∧
    ValidateChannel.voltage (PyVal.str ", ") = VResult.ok ", " ∧
    voltage_values.aliases.contains "m" = false ∧
    voltage_values.aliases.contains ", " = false ∧
    ValidateChannel.voltage (PyVal.str "max") = VResult.ok "MAX" := by
  decide

/-- C7: evaluation at the failing inputs.  register_8 validates against
the tuple (0, 128), so it rejects 129, 200 and 255 with a ValueError
although an 8-bit register ranges over [0, 255]; 0 and 128 are
accepted. -/
theorem register_8_rejects_129_to_255 :
    ValidateRegister.register_8 (PyVal.int 200) =
      VResult.valueErr (irtValueErrMsg register_8_values) ∧
    ValidateRegister.register_8 (PyVal.int 255) =
      VResult.valueErr (irtValueErrMsg register_8_values) ∧
    ValidateRegister.register_8 (PyVal.int 129) =
      VResult.valueErr (irtValueErrMsg register_8_values) ∧
    ValidateRegister.register_8 (PyVal.int 128) = VResult.ok "128" ∧
    ValidateRegister.register_8 (PyVal.int 0) = VResult.ok "0" := by
  decide

/-- C8 counterexample: the rejected values 17.0 and 999.0 produce
byte-for-byte identical ValueError payloads from the voltage validator,
and the payload does not contain the digits of the rejected value, so
the error does not carry the rejected value itself. -/
theorem validator_error_omits_rejected_value :
    ValidateChannel.voltage (PyVal.float 17) =
      ValidateChannel.voltage (PyVal.float 999) ∧
    ValidateChannel.voltage (PyVal.float 17) =
      VResult.valueErr (frsRangeErrMsg voltage_values) ∧
    pyInStr "17" (frsRangeErrMsg voltage_values) = false ∧
    pyInStr "999" (frsRangeErrMsg voltage_values) = false := by
  decide

/-- C8 amended: every rejection is returned as an ordinary error value
whose payload is built solely from the accepted-domain description (the
numeric range and/or the alias set) plus, for a TypeError, the rejected
value's type - never from the rejected value itself. -/
theorem validator_error_payload_domain_only (s : NumStrSet) (r : Nat)
    (rng : Int × Int) (v : PyVal) :
    ((∃ t, float_rng_and_str_tuples s v r = VResult.ok t) ∨
      float_rng_and_str_tuples s v r = VResult.valueErr (frsRangeErrMsg s) ∨
      float_rng_and_str_tuples s v r = VResult.valueErr (frsSetErrMsg s) ∨
      float_rng_and_str_tuples s v r = VResult.typeErr (frsTypeErrMsg v.typeName)) ∧
    ((∃ t, int_rng_tuple rng v = VResult.ok t) ∨
      int_rng_tuple rng v = VResult.valueErr (irtValueErrMsg rng) ∨
      int_rng_tuple rng v = VResult.typeErr (irtTypeErrMsg v.typeName)) := by
  constructor
  · cases v with
    | int n =>
        simp only [float_rng_and_str_tuples, frsNumCase]
        split
        · exact Or.inl ⟨_, rfl⟩
        · exact Or.inr (Or.inl rfl)
    | float q =>
        simp only [float_rng_and_str_tuples, frsNumCase]
        split
        · exact Or.inl ⟨_, rfl⟩
        · exact Or.inr (Or.inl rfl)
    | str sv =>
        simp only [float_rng_and_str_tuples]
        split
        · exact Or.inl ⟨_, rfl⟩
        · exact Or.inr (Or.inr (Or.inl rfl))
    | other ty => exact Or.inr (Or.inr (Or.inr rfl))
  · cases v with
    | int n =>
        simp only [int_rng_tuple]
        split
        · exact Or.inl ⟨_, rfl⟩
        · exact Or.inr (Or.inl rfl)
    | float q => exact Or.inr (Or.inr rfl)
    | str sv => exact Or.inr (Or.inr rfl)
    | other ty => exact Or.inr (Or.inr rfl)

/-- C3 counterexample: for the accepted string input "dvm" the validator
returns the canonical token "DVM", but the command sent on the bus is
the write token followed by the raw input "dvm", which differs from the
write token followed by the canonical token. -/
theorem read_write_sends_raw_not_canonical :
    ValidateLog.sample_channel (PyVal.str "dvm") = VResult.ok "DVM" ∧
    read_write scDev [] ":SENS:A:PULS:MEAS:CHAN?" ":SENS:A:PULS:MEAS:CHAN"
        (some (PyObj.callable ValidateLog.sample_channel))
        (some (PyVal.str "dvm")) (some scValues0) "sample_source" =
      some { trace := [BusOp.write ":SENS:A:PULS:MEAS:CHAN dvm",
                       BusOp.query ":SENS:A:PULS:MEAS:CHAN?"],
             ret := none, dict := some scValues1, diag := none } ∧
    (":SENS:A:PULS:MEAS:CHAN dvm" : String) ≠ ":SENS:A:PULS:MEAS:CHAN DVM" := by
  decide

/-- C3 amended: for every value the validator accepts, the command sent
on the bus is the write token followed by a space and str(value) - the
input's own string form, which keeps a string input's original casing
(the validator's canonical token is discarded) and coincides with the
canonical token for numeric inputs. -/
theorem read_write_sends_write_token_space_raw_value (dev : DeviceModel)
    (hist : List BusOp) (q w : String) (f : PyVal → VResult) (v : PyVal)
    (dct : Option Dict) (key tok : String) (hacc : f v = VResult.ok tok) :
    Option.map RWOut.trace
        (read_write dev hist q w (some (PyObj.callable f)) (some v) dct key) =
      some (hist ++ BusOp.write (w ++ " " ++ v.toPyStr) ::
        (match dct with | some _ => [BusOp.query q] | none => [])) := by
  cases dct <;> simp [read_write, callPy, hacc, rwSend]

/-- Witness for the amended C3 at a concrete input: with the accepted
string "dvm" the trace's write operation carries the raw lower-case
input. -/
theorem read_write_sends_write_token_space_raw_value_witness :
    ValidateLog.sample_channel (PyVal.str "dvm") = VResult.ok "DVM" ∧
    Option.map RWOut.trace
        (read_write scDev [] ":SENS:A:PULS:MEAS:CHAN?" ":SENS:A:PULS:MEAS:CHAN"
          (some (PyObj.callable ValidateLog.sample_channel))
          (some (PyVal.str "dvm")) none "sample_source") =
      some [BusOp.write ":SENS:A:PULS:MEAS:CHAN dvm"] :=
  ⟨by decide,
   read_write_sends_write_token_space_raw_value scDev []
     ":SENS:A:PULS:MEAS:CHAN?" ":SENS:A:PULS:MEAS:CHAN"
     ValidateLog.sample_channel (PyVal.str "dvm") none "sample_source" "DVM"
     (by decide)⟩

/-- C9: the reference data-ready scenario.  With cached
sample_length 100 and sample_interval 0.01 and a fetched response
"1.0;2.0;3.0", the stored series is [1.0, 2.0, 3.0] and the synthesized
time axis has exactly 100 points whose first three entries are
0.0, 0.01, 0.02. -/
theorem start_sample_dataready_series_and_time_axis :
    (start_sample drDev drSt []).map
        (fun p => (p.1.log_data.current,
                   p.1.log_data.seconds.map List.length,
                   p.1.log_data.seconds.map (List.take 3))) =
      some (some [1, 2, 3], some 100, some [0, mkRat 1 100, mkRat 2 100]) := by
  decide

/-- C5: evaluation at the failing input.  A successful
sample_channel('dvm') write-and-requery stores the device's echo DVM
under the key 'sample_source' while 'sample_channel' keeps its
constructor-time value CURR; the subsequent data-ready run classifies on
the stale 'sample_channel' entry and stores the series as current
samples although the most recently confirmed source DVM is not a
current-type token. -/
theorem start_sample_classifies_on_stale_sample_channel_key :
    (Log.sample_channel scDev scSt0 [] (some (PyVal.str "dvm"))).map Prod.snd =
      some scSt1 ∧
    dictGet scSt1.values "sample_source" = some "DVM" ∧
    dictGet scSt1.values "sample_channel" = some "CURR" ∧
    sample_channel_values.contains "dvm" = true ∧
    (["CURR", "CURRENT"].contains "DVM") = false ∧
    (start_sample scDev scSt1 []).map
        (fun p => (p.1.log_data.current, p.1.log_data.voltage)) =
      some (some [mkRat 3 2, mkRat 5 2], none) := by
  decide

/-- C4: whenever start_sample runs to completion (the wait returned and
no branch raised), and the initial Measurement Enable register response
parses to a value e within the validator's 16-bit range, the last bus
operation of the run - in the data-ready, trigger-timeout and unknown
branches alike - is the write restoring the Measurement Enable register
to exactly e. -/
theorem start_sample_restores_enable_register_last (dev : DeviceModel)
    (st : LogState) (hist : List BusOp) (st' : LogState) (tr : List BusOp)
    (e : Int) (hp : pyInt (ssEnabResp dev hist) = some e) (h0 : 0 ≤ e)
    (h1 : e ≤ 65535) (hrun : start_sample dev st hist = some (st', tr)) :
    tr.getLast? = some (BusOp.write (":STAT:MEAS:ENAB " ++ toString e)) := by
  have h16e : ValidateRegister.register_16 (PyVal.int e) =
      VResult.ok (toString e) := by
    simp [ValidateRegister.register_16, int_rng_tuple, register_16_values, h0, h1]
  simp only [start_sample, hp] at hrun
  by_cases hA : st.channel = "A"
  · simp only [chanConsts, hA, if_pos] at hrun
    rw [read_write_set_ok dev _ _ _ ValidateRegister.register_16
      (PyVal.int 56) "56" (by decide)] at hrun
    rw [Option.some_bind] at hrun
    dsimp only at hrun
    rw [read_write_set_ok dev _ _ _ ValidateRegister.register_8
      (PyVal.int 1) "1" (by decide)] at hrun
    rw [Option.some_bind] at hrun
    dsimp only at hrun
    rw [read_write_set_ok dev _ _ _ ValidateRegister.register_8
      (PyVal.int 0) "0" (by decide)] at hrun
    rw [Option.some_bind] at hrun
    dsimp only at hrun
    obtain ⟨evreg, hev, hrun⟩ := Option.bind_eq_some.mp hrun
    obtain ⟨ldh, hbr, hrun⟩ := Option.bind_eq_some.mp hrun
    obtain ⟨r4, hr4, hrun⟩ := Option.bind_eq_some.mp hrun
    rw [read_write_set_ok dev _ _ _ ValidateRegister.register_16
      (PyVal.int e) (toString e) h16e] at hr4
    obtain rfl := (Option.some.inj hr4)
    obtain ⟨-, rfl⟩ := Prod.mk.injEq .. ▸ Option.some.inj hrun
    exact getLast?_append_single ..
  · simp only [chanConsts, if_neg hA] at hrun
    rw [read_write_set_ok dev _ _ _ ValidateRegister.register_16
      (PyVal.int 448) "448" (by decide)] at hrun
    rw [Option.some_bind] at hrun
    dsimp only at hrun
    rw [read_write_set_ok dev _ _ _ ValidateRegister.register_8
      (PyVal.int 1) "1" (by decide)] at hrun
    rw [Option.some_bind] at hrun
    dsimp only at hrun
    rw [read_write_set_ok dev _ _ _ ValidateRegister.register_8
      (PyVal.int 0) "0" (by decide)] at hrun
    rw [Option.some_bind] at hrun
    dsimp only at hrun
    obtain ⟨evreg, hev, hrun⟩ := Option.bind_eq_some.mp hrun
    obtain ⟨ldh, hbr, hrun⟩ := Option.bind_eq_some.mp hrun
    obtain ⟨r4, hr4, hrun⟩ := Option.bind_eq_some.mp hrun
    rw [read_write_set_ok dev _ _ _ ValidateRegister.register_16
      (PyVal.int e) (toString e) h16e] at hr4
    obtain rfl := (Option.some.inj hr4)
    obtain ⟨-, rfl⟩ := Prod.mk.injEq .. ▸ Option.some.inj hrun
    exact getLast?_append_single ..

/-- Witness for C4 at a concrete input: a trigger-timeout run against
toDev completes, the saved enable value is 56, and the final bus
operation is the restoring write of 56. -/
theorem start_sample_restores_enable_register_last_witness :
    pyInt (ssEnabResp toDev []) = some 56 ∧ (0 : Int) ≤ 56 ∧
    (56 : Int) ≤ 65535 ∧ start_sample toDev toSt [] = some (toSt, toTrace) ∧
    toTrace.getLast? =
      some (BusOp.write (":STAT:MEAS:ENAB " ++ toString (56 : Int))) :=
  ⟨by decide, by decide, by decide, by decide,
   start_sample_restores_enable_register_last toDev toSt [] toSt toTrace 56
     (by decide) (by decide) (by decide) (by decide)⟩
